import Mathlib

/-
  Verification development for the Rockbot chat client.

  The definitions below are a shallow embedding of the state-management
  logic of the front end:
  * frontend/rockbot-ui/src/components/ChatInterface.jsx
    (namespace Rockbot: deleted-message localStorage map, loadMessages,
     sendMessage, deleteMessage, theme handling, scroll handling)
  * the second ChatInterface variant shipped in the repository
    (namespace Rockbot.PartB: request-body construction and the
     sendMessage success path of that variant)
  * frontend/rockbot-ui/src/components/ui/theme-toggle.jsx
    (first ThemeToggle component in that file).

  Browser state (localStorage, the DOM dark class, React state) is made
  explicit; network calls are parameters describing the outcome the
  browser observed; fresh uid() values and Date.toISOString() values are
  parameters.
-/

namespace Rockbot

/-- JavaScript `a || d` on an optional string: an absent value and the
empty string are falsy, every other string is kept. -/
def jsOrStr : Option String → String → String
  | some s, d => if s.isEmpty then d else s
  | none, d => d

/-- JavaScript String.prototype.trim, as the source calls it on the
input: strip leading and trailing whitespace. -/
def jsTrim (s : String) : String :=
  ⟨((s.data.dropWhile Char.isWhitespace).reverse.dropWhile
      Char.isWhitespace).reverse⟩

/-- A chat message as kept in the `messages` React state of
ChatInterface.jsx: id, role, content, timestamp and the optional
attached-file payload. -/
structure Msg where
  id : String
  role : String
  content : String
  timestamp : String
  file : Option String := none
  deriving DecidableEq

/-- The browser-local deleted-ids record stored under
`rockbot_deleted_msgs_v1`: a JS object mapping a conversation id to an
array of message ids.  `none` models an absent key. -/
abbrev DeletedMap := String → Option (List String)

/-- The record parsed from empty localStorage: no keys at all. -/
def emptyDeletedMap : DeletedMap := fun _ => none

/-- markMessageDeletedLocally (ChatInterface.jsx lines 97-102):
create the entry if the key is absent, then push the message id
unless it is already present. -/
def markMessageDeletedLocally (map : DeletedMap) (conversationId msgId : String) :
    DeletedMap :=
  fun c =>
    if c = conversationId then
      let l := (map conversationId).getD []
      some (if msgId ∈ l then l else l ++ [msgId])
    else map c

/-- isMessageLocallyDeleted (ChatInterface.jsx lines 103-106):
true when the key holds an array containing the message id. -/
def isMessageLocallyDeleted (map : DeletedMap) (conversationId msgId : String) :
    Bool :=
  match map conversationId with
  | some l => decide (msgId ∈ l)
  | none => false

/-- removeLocalDeletedMark (ChatInterface.jsx lines 107-112):
no-op when the key is absent, otherwise filter the id out of the
stored array. -/
def removeLocalDeletedMark (map : DeletedMap) (conversationId msgId : String) :
    DeletedMap :=
  match map conversationId with
  | none => map
  | some l =>
      fun c =>
        if c = conversationId then some (l.filter (fun x => decide (x ≠ msgId)))
        else map c

/-- Success path of loadMessages (ChatInterface.jsx lines 411-423): the
fetched messages with every locally deleted id filtered out. -/
def loadMessages (conversationId : String) (fetched : List Msg)
    (map : DeletedMap) : List Msg :=
  fetched.filter (fun msg => !(isMessageLocallyDeleted map conversationId msg.id))

/-- The part of the ChatInterface React state the delete and load flows
touch: the displayed messages and the localStorage deleted-ids record. -/
structure UIState where
  messages : List Msg
  deletedMap : DeletedMap

/-- Outcome of the DELETE /api/messages/id call as the client observes
it: ok is a 2xx response, err is a network error or a non-2xx status
(for example 404), both of which reach the catch block via the thrown
error. -/
inductive ServerResult where
  | ok
  | err

/-- deleteMessage before the DELETE request is sent (ChatInterface.jsx
lines 591-593): the message is filtered out of the displayed list and
its id recorded in the deleted-ids map. -/
def deleteMessagePre (conversationId msgId : String) (s : UIState) : UIState :=
  { messages := s.messages.filter (fun m => m.id != msgId),
    deletedMap := markMessageDeletedLocally s.deletedMap conversationId msgId }

/-- Full deleteMessage (ChatInterface.jsx lines 588-608): the optimistic
update of deleteMessagePre, then on a successful DELETE the local mark is
removed; on a failed DELETE the catch block keeps it. -/
def deleteMessage (conversationId msgId : String) (result : ServerResult)
    (s : UIState) : UIState :=
  match result with
  | .ok =>
      let s1 := deleteMessagePre conversationId msgId s
      { s1 with
          deletedMap := removeLocalDeletedMark s1.deletedMap conversationId msgId }
  | .err => deleteMessagePre conversationId msgId s

/-- The JSON fields of the /api/chat response that ChatInterface.jsx
reads (lines 519-538): user_msg_id, assistant_msg_id, response and
conversation_title.  `none` models an absent field. -/
structure ChatResponseData where
  user_msg_id : Option String := none
  assistant_msg_id : Option String := none
  response : Option String := none
  conversation_title : Option String := none

/-- Outcome of the POST /api/chat call: a parsed JSON body on a 2xx
status, or the message of the error thrown for a network failure or a
non-2xx status. -/
inductive ChatOutcome where
  | success (responseData : ChatResponseData)
  | failure (errText : String)

/-- The early-return guard of sendMessage (ChatInterface.jsx line 463):
nothing happens while a send is in flight or when the trimmed input is
empty and no file is attached. -/
def sendMessageGuard (isSending : Bool) (input : String)
    (uploadedFile : Option String) : Bool :=
  isSending || ((jsTrim input).isEmpty && uploadedFile.isNone)

/-- The optimistic step of sendMessage (ChatInterface.jsx lines 471-482):
the temporary user message appended to the list before the network call. -/
def sendMessageOptimistic (tempMsgId ts1 : String) (input : String)
    (uploadedFile : Option String) (isSending : Bool) (msgs : List Msg) :
    List Msg :=
  if sendMessageGuard isSending input uploadedFile then msgs
  else
    msgs ++ [{ id := tempMsgId, role := "user", content := (jsTrim input),
               timestamp := ts1, file := uploadedFile }]

/-- The id-reconciliation map of sendMessage (ChatInterface.jsx
lines 523-525): the message carrying the temporary id gets the id
`responseData.user_msg_id || tempMsgId`; every other message is returned
as is. -/
def reconcileTempId (tempMsgId : String) (user_msg_id : Option String)
    (msgs : List Msg) : List Msg :=
  msgs.map (fun m =>
    if m.id = tempMsgId then { m with id := jsOrStr user_msg_id tempMsgId }
    else m)

/-- The assistant message built from the /api/chat response
(ChatInterface.jsx lines 527-532). -/
def assistantMessage (responseData : ChatResponseData) (freshId ts2 : String) :
    Msg :=
  { id := jsOrStr responseData.assistant_msg_id freshId,
    role := "assistant",
    content := jsOrStr responseData.response
      "Sorry, I couldn\'t process that request.",
    timestamp := ts2, file := none }

/-- The assistant-role error message the catch block of sendMessage
appends (ChatInterface.jsx lines 548-554). -/
def errorMessage (errId errText ts2 : String) : Msg :=
  { id := errId, role := "assistant",
    content := "**Error:** " ++ errText ++ ". Please try again.",
    timestamp := ts2, file := none }

/-- Evolution of the messages state across one run of sendMessage
(ChatInterface.jsx lines 462-559): the guard, the optimistic user
message, then either the reconciliation plus the assistant reply, or the
appended error message when the request fails (the thrown error is
caught, never propagated).  uid() values and timestamps are parameters. -/
def sendMessage (tempMsgId freshId errId ts1 ts2 : String) (input : String)
    (uploadedFile : Option String) (isSending : Bool) (msgs : List Msg)
    (outcome : ChatOutcome) : List Msg :=
  if sendMessageGuard isSending input uploadedFile then msgs
  else
    let withUser := sendMessageOptimistic tempMsgId ts1 input uploadedFile
      isSending msgs
    match outcome with
    | .success responseData =>
        reconcileTempId tempMsgId responseData.user_msg_id withUser
          ++ [assistantMessage responseData freshId ts2]
    | .failure errText => withUser ++ [errorMessage errId errText ts2]

/-- Outcome of the GET conversations/id/messages fetch: the parsed
message array on success, or err for a network error or non-ok status. -/
inductive FetchMessages where
  | ok (messages : List Msg)
  | err

/-- The loadMessages useEffect of ChatInterface.jsx (lines 404-434): a
null current conversation empties the list; otherwise the fetched
messages are filtered through the deleted-ids record, and on a fetch
failure a single mock greeting replaces the list. -/
def messagesEffect (currentConversation : Option String)
    (fetch : FetchMessages) (map : DeletedMap) (mockId mockTs : String) :
    List Msg :=
  match currentConversation with
  | none => []
  | some cid =>
      match fetch with
      | .ok fetched => loadMessages cid fetched map
      | .err =>
          [{ id := mockId, role := "assistant",
             content := "Hello! How can I help you today?",
             timestamp := mockTs, file := none }]

/-- The payload object ChatInterface.jsx builds for POST /api/chat
(lines 501-507), as the ordered list of JSON fields; an optional value
models a field that may be undefined. -/
def chatPayload (conversation_id agent_id message : String)
    (file_data file_name : Option String) : List (String × Option String) :=
  [("conversation_id", some conversation_id),
   ("agent_id", some agent_id),
   ("message", some message),
   ("file_data", file_data),
   ("file_name", file_name)]

/-- Step relation on the UI state for a fixed shown conversation,
covering the operations that (re)populate the messages list: a reload of
the messages (success path, or the mock fallback whose fresh uid is not
a locally deleted id) and a message deletion with either server outcome. -/
inductive UIStep (conversationId : String) : UIState → UIState → Prop where
  | load (fetched : List Msg) (s : UIState) :
      UIStep conversationId s
        ⟨loadMessages conversationId fetched s.deletedMap, s.deletedMap⟩
  | loadFallback (mockId mockTs : String) (s : UIState)
      (hfresh : isMessageLocallyDeleted s.deletedMap conversationId mockId = false) :
      UIStep conversationId s
        ⟨messagesEffect (some conversationId) .err s.deletedMap mockId mockTs,
         s.deletedMap⟩
  | delete (msgId : String) (result : ServerResult) (s : UIState) :
      UIStep conversationId s (deleteMessage conversationId msgId result s)

/-- The invariant of claim C5: no displayed message has its id recorded
in the deleted-ids map of the shown conversation. -/
def noDeletedShown (conversationId : String) (s : UIState) : Bool :=
  s.messages.all
    (fun m => !(isMessageLocallyDeleted s.deletedMap conversationId m.id))

/-- React theme-related browser state of ChatInterface.jsx: the theme
state variable, the localStorage entry under rockbot_theme_v1 and
whether the html element carries the dark class. -/
structure ThemeState where
  theme : String
  storage : Option String
  darkClass : Bool

/-- toggleTheme (ChatInterface.jsx lines 352-354): flip light to dark
and anything else to light. -/
def toggleTheme (s : ThemeState) : ThemeState :=
  { s with theme := if s.theme = "light" then "dark" else "light" }

/-- The theme useEffect (ChatInterface.jsx lines 347-350): toggle the
dark class to (theme === "dark") and store the theme. -/
def themeEffect (s : ThemeState) : ThemeState :=
  { s with darkClass := s.theme == "dark", storage := some s.theme }

/-- The mount effect after a reload (ChatInterface.jsx lines 342-345):
a fresh document (no dark class yet) whose theme is the stored value,
defaulting to light when localStorage has nothing. -/
def reloadThemeInit (storage : Option String) : ThemeState :=
  { theme := jsOrStr storage "light", storage := storage, darkClass := false }

/-- The toggle handler of ui/theme-toggle.jsx (line 32): dark flips to
light and anything else to dark. -/
def themeToggleFlip (theme : String) : String :=
  if theme = "dark" then "light" else "dark"

/-- The useState initializer of ui/theme-toggle.jsx (lines 9-17): the
saved preference when present (and truthy), else the system
color-scheme preference. -/
def themeToggleInit (saved : Option String) (systemDark : Bool) : String :=
  jsOrStr saved (if systemDark then "dark" else "light")

/-- The geometry the scroll handler reads from the scroll container
(ChatInterface.jsx lines 446-454). -/
structure ScrollMetrics where
  scrollHeight : Int
  clientHeight : Int
  scrollTop : Int

/-- The isAtBottom test of handleScroll (ChatInterface.jsx line 448):
scrollHeight minus clientHeight is within 10 pixels of scrollTop. -/
def isAtBottom (e : ScrollMetrics) : Bool :=
  decide (e.scrollHeight - e.clientHeight ≤ e.scrollTop + 10)

/-- handleScroll (ChatInterface.jsx lines 446-454): the manualScroll
state after a scroll event is the negation of isAtBottom. -/
def handleScroll (e : ScrollMetrics) : Bool :=
  !(isAtBottom e)

/-- The auto-scroll guard of the scroll useEffect (ChatInterface.jsx
line 442): scroll to the bottom unless the user scrolled up manually,
except while sending or while the typing indicator shows. -/
def shouldAutoScroll (manualScroll isSending isTyping : Bool) : Bool :=
  !manualScroll || isSending || isTyping

namespace PartB

/-- A chat message of the second ChatInterface variant (src/unnamed/
part_002): it additionally tracks the in-flight flag and reaction
counters. -/
structure Msg where
  id : String
  role : String
  content : String
  timestamp : String
  sending : Bool := false
  likes : Nat := 0
  dislikes : Nat := 0
  file : Option String := none
  deriving DecidableEq

/-- The request body the part_002 sendMessage builds for POST /api/chat
(lines 569-575): message, conversation_id and agent_type, plus a file
field only when the uploaded file carried backend data. -/
def chatBody (message : String) (conversation_id : Option String)
    (agent_type : String) (fileData : Option String) :
    List (String × Option String) :=
  [("message", some message),
   ("conversation_id", conversation_id),
   ("agent_type", some agent_type)]
    ++ (match fileData with
        | some d => [("file", some d)]
        | none => [])

/-- One element of the normalized ai_response array of the /api/chat
response (part_002 lines 595-604): either a plain string or a message
object. -/
inductive AiItem where
  | str (s : String)
  | obj (id : Option String) (content : Option String) (text : Option String)
      (timestamp : Option String) (likes : Option Nat) (dislikes : Option Nat)
  deriving DecidableEq

/-- The JSON fields of the /api/chat response that the part_002
sendMessage reads (lines 589-616).  ai_response is already normalized to
the array form (Array.isArray wraps a single value); `none` stands for
an absent or falsy field. -/
structure ChatJson where
  user_message_id : Option String := none
  user_message_obj_id : Option String := none
  ai_response : Option (List AiItem) := none
  response : Option String := none
  conversation_id : Option String := none

/-- An ai_response element turned into an assistant message (part_002
lines 597-604); stringify abstracts JSON.stringify. -/
def aiItemToMsg (stringify : AiItem → String) (freshId ts2 : String) :
    AiItem → Msg
  | .str s =>
      { id := freshId, role := "assistant", content := s, timestamp := ts2 }
  | .obj id content text timestamp likes dislikes =>
      { id := jsOrStr id freshId, role := "assistant",
        content := jsOrStr content (jsOrStr text
          ((stringify (.obj id content text timestamp likes dislikes)).take 300)),
        timestamp := jsOrStr timestamp ts2,
        likes := likes.getD 0, dislikes := dislikes.getD 0 }

/-- The id-reconciliation map of the part_002 sendMessage (line 592):
the message carrying the temporary id is marked sent and gets the id
`json.user_message.id || json.user_message_id || m.id`. -/
def reconcileTmp (tmpId : String) (json : ChatJson) (msgs : List Msg) :
    List Msg :=
  msgs.map (fun m =>
    if m.id = tmpId then
      { m with sending := false,
               id := jsOrStr json.user_message_obj_id
                 (jsOrStr json.user_message_id m.id) }
    else m)

/-- Outcome of the POST /api/chat call of the part_002 variant. -/
inductive Outcome where
  | success (json : ChatJson)
  | failure (errText : String)

/-- Evolution of the messages state across one run of the part_002
sendMessage (lines 539-632, non-edit path): guard on empty input without
a file, optimistic user message, then reconciliation plus the
ai_response-derived assistant messages (or the No-response fallback), or
the appended error message when the request fails.  fresh models the
per-item uid("ai-") calls. -/
def sendMessage (stringify : AiItem → String) (tmpId : String)
    (fresh : Nat → String) (fallbackId errId ts1 ts2 : String)
    (inputMessage : String) (filePayload : Option String) (msgs : List Msg)
    (outcome : Outcome) : List Msg :=
  let content := (jsTrim inputMessage)
  if content.isEmpty && filePayload.isNone then msgs
  else
    let userMessage : Msg :=
      { id := tmpId, role := "user", content := content, timestamp := ts1,
        sending := true, file := filePayload }
    let withUser := msgs ++ [userMessage]
    match outcome with
    | .success json =>
        let reconciled := reconcileTmp tmpId json withUser
        match json.ai_response with
        | some items =>
            reconciled
              ++ items.mapIdx (fun i it => aiItemToMsg stringify (fresh i) ts2 it)
        | none =>
            reconciled
              ++ [{ id := fallbackId, role := "assistant",
                    content := jsOrStr json.response "No response.",
                    timestamp := ts2 }]
    | .failure errText =>
        withUser
          ++ [{ id := errId, role := "assistant",
                content := "Sorry — I couldn\'t send the message: " ++ errText,
                timestamp := ts2 }]

/-- The currentConversation update after a successful /api/chat response
(part_002 lines 615-621): with no current conversation a truthy
conversation_id of the response is adopted. -/
def conversationAfter (currentConversation : Option String)
    (json : ChatJson) : Option String :=
  match currentConversation with
  | some c => some c
  | none =>
      match json.conversation_id with
      | some c => if c.isEmpty then none else some c
      | none => none

/-- The messages state set by the part_002 loadConversation success path
(lines 363-373): `json.messages || []`, replacing whatever was shown. -/
def loadConversationMessages (messages : Option (List Msg)) : List Msg :=
  messages.getD []

/-- A concrete /api/chat response used to exercise the definitions on a
closed input: user message id u7, one plain-string reply, and a fresh
conversation id c42. -/
def sampleChatJson : ChatJson :=
  { user_message_id := some "u7",
    user_message_obj_id := none,
    ai_response := some [AiItem.str "hi there"],
    response := none,
    conversation_id := some "c42" }

end PartB

/-! Helper lemmas about the deleted-ids map. -/

theorem isMessageLocallyDeleted_eq_mem (map : DeletedMap) (c x : String) :
    isMessageLocallyDeleted map c x = decide (x ∈ (map c).getD []) := by
  unfold isMessageLocallyDeleted
  cases map c <;> simp

theorem apply_markMessageDeletedLocally (map : DeletedMap) (c i : String) :
    markMessageDeletedLocally map c i c
      = some (if i ∈ (map c).getD [] then (map c).getD []
              else (map c).getD [] ++ [i]) := by
  unfold markMessageDeletedLocally
  simp

theorem isMessageLocallyDeleted_mark (map : DeletedMap) (c i x : String) :
    isMessageLocallyDeleted (markMessageDeletedLocally map c i) c x
      = (decide (x = i) || isMessageLocallyDeleted map c x) := by
  rw [isMessageLocallyDeleted_eq_mem, isMessageLocallyDeleted_eq_mem,
    apply_markMessageDeletedLocally]
  by_cases hi : i ∈ (map c).getD []
  · by_cases hx : x = i
    · subst hx
      simp [hi]
    · simp [hi, hx]
  · simp only [hi, if_false, Option.getD_some, List.mem_append,
      List.mem_singleton]
    by_cases hx : x = i <;> simp [hx]

theorem isMessageLocallyDeleted_remove (map : DeletedMap) (c i x : String) :
    isMessageLocallyDeleted (removeLocalDeletedMark map c i) c x
      = (decide (x ≠ i) && isMessageLocallyDeleted map c x) := by
  rw [isMessageLocallyDeleted_eq_mem, isMessageLocallyDeleted_eq_mem]
  unfold removeLocalDeletedMark
  cases h : map c with
  | none => simp [h]
  | some l =>
      simp only [h, Option.getD_some]
      by_cases hx : x = i <;> by_cases hl : x ∈ l <;>
        simp [hx, hl, List.mem_filter]

theorem markMessageDeletedLocally_idem (map : DeletedMap) (c m : String) :
    markMessageDeletedLocally (markMessageDeletedLocally map c m) c m
      = markMessageDeletedLocally map c m := by
  funext c'
  by_cases hc : c' = c
  · subst hc
    rw [apply_markMessageDeletedLocally, apply_markMessageDeletedLocally]
    by_cases hm : m ∈ (map c').getD [] <;> simp [hm]
  · unfold markMessageDeletedLocally
    simp [hc]

/-- C10: the browser-local deleted-ids helpers form the expected little
algebra: markMessageDeletedLocally is idempotent and after a double mark
the stored array holds the id exactly once (given the stored array did
not already hold duplicate copies of it, which no helper ever produces);
isMessageLocallyDeleted answers true right after a mark, and false after
a subsequent removeLocalDeletedMark of the same pair. -/
theorem C10_deleted_map_algebra (map : DeletedMap) (c m : String)
    (h : ((map c).getD []).count m ≤ 1) :
    markMessageDeletedLocally (markMessageDeletedLocally map c m) c m
        = markMessageDeletedLocally map c m
    ∧ ((markMessageDeletedLocally (markMessageDeletedLocally map c m) c m c).getD
        []).count m = 1
    ∧ isMessageLocallyDeleted (markMessageDeletedLocally map c m) c m = true
    ∧ isMessageLocallyDeleted
        (removeLocalDeletedMark (markMessageDeletedLocally map c m) c m) c m
        = false := by
  refine ⟨markMessageDeletedLocally_idem map c m, ?_, ?_, ?_⟩
  · rw [markMessageDeletedLocally_idem, apply_markMessageDeletedLocally]
    by_cases hm : m ∈ (map c).getD []
    · have h1 : 1 ≤ ((map c).getD []).count m := List.one_le_count_iff.mpr hm
      simp only [hm, if_true, Option.getD_some]
      omega
    · have h0 : ((map c).getD []).count m = 0 := List.count_eq_zero.mpr hm
      simp [hm, h0]
  · rw [isMessageLocallyDeleted_mark]
    simp
  · rw [isMessageLocallyDeleted_remove]
    simp

/-- C10 witness: the algebra evaluated on the empty localStorage record,
conversation c1 and message id m1. -/
theorem C10_witness :
    ((emptyDeletedMap "c1").getD []).count "m1" ≤ 1
    ∧ (markMessageDeletedLocally (markMessageDeletedLocally emptyDeletedMap "c1" "m1") "c1" "m1"
          = markMessageDeletedLocally emptyDeletedMap "c1" "m1"
      ∧ ((markMessageDeletedLocally (markMessageDeletedLocally emptyDeletedMap "c1" "m1") "c1" "m1" "c1").getD
          []).count "m1" = 1
      ∧ isMessageLocallyDeleted (markMessageDeletedLocally emptyDeletedMap "c1" "m1") "c1" "m1" = true
      ∧ isMessageLocallyDeleted
          (removeLocalDeletedMark (markMessageDeletedLocally emptyDeletedMap "c1" "m1") "c1" "m1") "c1" "m1"
          = false) :=
  ⟨by decide, C10_deleted_map_algebra emptyDeletedMap "c1" "m1" (by decide)⟩

/-- C1: deleteMessage removes the message from the displayed list and
records its id in the deleted-ids map already in its pre-request phase
(deleteMessagePre, which deleteMessage runs before consulting the server
outcome, and which fully determines the displayed list); after a failed
DELETE the record remains and a reload of the conversation filters the
message out again; after a successful DELETE the record is removed. -/
theorem C1_delete_message_local_fallback (conversationId msgId : String)
    (s : UIState) (result : ServerResult) (fetched : List Msg) :
    (deleteMessage conversationId msgId result s).messages
        = (deleteMessagePre conversationId msgId s).messages
    ∧ ((deleteMessagePre conversationId msgId s).messages.all
        (fun m => m.id != msgId)) = true
    ∧ isMessageLocallyDeleted
        (deleteMessagePre conversationId msgId s).deletedMap conversationId msgId
        = true
    ∧ isMessageLocallyDeleted
        (deleteMessage conversationId msgId .err s).deletedMap conversationId msgId
        = true
    ∧ ((loadMessages conversationId fetched
          (deleteMessage conversationId msgId .err s).deletedMap).all
        (fun m => m.id != msgId)) = true
    ∧ isMessageLocallyDeleted
        (deleteMessage conversationId msgId .ok s).deletedMap conversationId msgId
        = false := by
  have hmark : isMessageLocallyDeleted
      (markMessageDeletedLocally s.deletedMap conversationId msgId)
      conversationId msgId = true := by
    rw [isMessageLocallyDeleted_mark]
    simp
  refine ⟨?_, ?_, hmark, hmark, ?_, ?_⟩
  · cases result <;> rfl
  · simp [deleteMessagePre, List.all_eq_true, List.mem_filter]
  · simp only [deleteMessage, deleteMessagePre, loadMessages,
      List.all_eq_true, List.mem_filter]
    rintro m ⟨-, hpred⟩
    rw [bne_iff_ne]
    intro hid
    rw [hid, hmark] at hpred
    simp at hpred
  · simp only [deleteMessage, deleteMessagePre]
    rw [isMessageLocallyDeleted_remove]
    simp

/-! The invariant of claim C5 and its preservation across the step
relation. -/

theorem noDeletedShown_of_step {conversationId : String} {s s1 : UIState}
    (hstep : UIStep conversationId s s1)
    (h : noDeletedShown conversationId s = true) :
    noDeletedShown conversationId s1 = true := by
  simp only [noDeletedShown, List.all_eq_true, Bool.not_eq_true'] at h ⊢
  cases hstep with
  | load fetched s =>
      intro m hm
      rw [loadMessages, List.mem_filter] at hm
      simpa using hm.2
  | loadFallback mockId mockTs s hfresh =>
      intro m hm
      simp only [messagesEffect, List.mem_singleton] at hm
      rw [hm]
      exact hfresh
  | delete msgId result s =>
      have hmsgs : ∀ m ∈ s.messages.filter (fun m => m.id != msgId),
          isMessageLocallyDeleted s.deletedMap conversationId m.id = false
            ∧ m.id ≠ msgId := by
        intro m hm
        rw [List.mem_filter] at hm
        exact ⟨h m hm.1, bne_iff_ne.mp hm.2⟩
      cases result with
      | err =>
          intro m hm
          simp only [deleteMessage, deleteMessagePre] at hm ⊢
          obtain ⟨hdel, hne⟩ := hmsgs m hm
          rw [isMessageLocallyDeleted_mark]
          simp [hdel, hne]
      | ok =>
          intro m hm
          simp only [deleteMessage, deleteMessagePre] at hm ⊢
          obtain ⟨hdel, hne⟩ := hmsgs m hm
          rw [isMessageLocallyDeleted_remove, isMessageLocallyDeleted_mark]
          simp [hdel, hne]

/-- C5: from any freshly opened conversation view (empty messages list,
arbitrary persisted deleted-ids record), every UI state reachable
through the list-(re)populating operations of the claim — reloading the
messages of the shown conversation and deleting a message, with either
server outcome — shows no message whose id the deleted-ids map records
for that conversation. -/
theorem C5_no_deleted_shown_invariant (conversationId : String)
    (map0 : DeletedMap) (s : UIState)
    (h : Relation.ReflTransGen (UIStep conversationId) ⟨[], map0⟩ s) :
    noDeletedShown conversationId s = true := by
  induction h with
  | refl => simp [noDeletedShown]
  | tail _ hstep ih => exact noDeletedShown_of_step hstep ih

/-- C5 witness: one load step from the empty view with the empty
localStorage record, on a singleton fetched list. -/
theorem C5_witness :
    Relation.ReflTransGen (UIStep "c1") ⟨[], emptyDeletedMap⟩
        ⟨loadMessages "c1"
          [{ id := "m1", role := "user", content := "hi", timestamp := "t0",
             file := none }] emptyDeletedMap, emptyDeletedMap⟩
    ∧ noDeletedShown "c1"
        ⟨loadMessages "c1"
          [{ id := "m1", role := "user", content := "hi", timestamp := "t0",
             file := none }] emptyDeletedMap, emptyDeletedMap⟩ = true :=
  ⟨Relation.ReflTransGen.single (UIStep.load _ _),
   C5_no_deleted_shown_invariant "c1" emptyDeletedMap _
     (Relation.ReflTransGen.single (UIStep.load _ _))⟩

/-! Helper lemmas about sendMessage. -/

theorem sendMessageGuard_false (input : String) (uploadedFile : Option String)
    (h : (jsTrim input).isEmpty = false) :
    sendMessageGuard false input uploadedFile = false := by
  simp [sendMessageGuard, h]

theorem reconcileTempId_append (tempMsgId : String) (user_msg_id : Option String)
    (l1 l2 : List Msg) :
    reconcileTempId tempMsgId user_msg_id (l1 ++ l2)
      = reconcileTempId tempMsgId user_msg_id l1
        ++ reconcileTempId tempMsgId user_msg_id l2 := by
  simp [reconcileTempId]

theorem reconcileTempId_length (tempMsgId : String)
    (user_msg_id : Option String) (l : List Msg) :
    (reconcileTempId tempMsgId user_msg_id l).length = l.length := by
  simp [reconcileTempId]

theorem sendMessage_success_eq (tempMsgId freshId errId ts1 ts2 input : String)
    (uploadedFile : Option String) (msgs : List Msg)
    (responseData : ChatResponseData)
    (h : (jsTrim input).isEmpty = false) :
    sendMessage tempMsgId freshId errId ts1 ts2 input uploadedFile false msgs
        (.success responseData)
      = reconcileTempId tempMsgId responseData.user_msg_id msgs
        ++ [{ id := jsOrStr responseData.user_msg_id tempMsgId, role := "user",
              content := (jsTrim input), timestamp := ts1, file := uploadedFile },
            assistantMessage responseData freshId ts2] := by
  simp only [sendMessage, sendMessageGuard_false input uploadedFile h,
    Bool.false_eq_true, if_false, sendMessageOptimistic, reconcileTempId_append]
  simp [reconcileTempId]

/-- C3: with no send in flight and a non-empty trimmed input, sendMessage
first appends the optimistic user-role message carrying the input (the
sendMessageOptimistic phase, which runs before the network outcome is
consulted), and on a successful response the final list keeps the first
length-of-msgs entries as the reconciliation of the old list and appends,
in order, the (id-reconciled) user message followed by the assistant-role
message whose content is the server reply — so the user message sits at
index msgs.length, right before the assistant message. -/
theorem C3_user_then_assistant (tempMsgId freshId errId ts1 ts2 input : String)
    (uploadedFile : Option String) (msgs : List Msg)
    (responseData : ChatResponseData)
    (h : (jsTrim input).isEmpty = false) :
    sendMessageOptimistic tempMsgId ts1 input uploadedFile false msgs
        = msgs ++ [{ id := tempMsgId, role := "user", content := (jsTrim input),
                     timestamp := ts1, file := uploadedFile }]
    ∧ (sendMessage tempMsgId freshId errId ts1 ts2 input uploadedFile false msgs
          (.success responseData)).take msgs.length
        = reconcileTempId tempMsgId responseData.user_msg_id msgs
    ∧ (sendMessage tempMsgId freshId errId ts1 ts2 input uploadedFile false msgs
          (.success responseData)).drop msgs.length
        = [{ id := jsOrStr responseData.user_msg_id tempMsgId, role := "user",
             content := (jsTrim input), timestamp := ts1, file := uploadedFile },
           assistantMessage responseData freshId ts2]
    ∧ (assistantMessage responseData freshId ts2).role = "assistant"
    ∧ (∀ reply : String, responseData.response = some reply →
        reply.isEmpty = false →
        (assistantMessage responseData freshId ts2).content = reply) := by
  have heq := sendMessage_success_eq tempMsgId freshId errId ts1 ts2 input
    uploadedFile msgs responseData h
  have hlen := reconcileTempId_length tempMsgId responseData.user_msg_id msgs
  refine ⟨?_, ?_, ?_, rfl, ?_⟩
  · simp [sendMessageOptimistic, sendMessageGuard_false input uploadedFile h]
  · rw [heq, ← hlen, List.take_left]
  · rw [heq, ← hlen, List.drop_left]
  · intro reply hr hne
    simp [assistantMessage, hr, jsOrStr, hne]

/-- C3 witness: a concrete send of "hi" into the empty list, answered
with reply "hello back" and server id "u1". -/
theorem C3_witness :
    ((jsTrim "hi").isEmpty = false)
    ∧ (({ user_msg_id := some "u1", assistant_msg_id := some "a1",
          response := some "hello back" } : ChatResponseData).response
        = some "hello back")
    ∧ (sendMessageOptimistic "tmp1" "t1" "hi" none false []
          = [] ++ [{ id := "tmp1", role := "user", content := (jsTrim "hi"),
                     timestamp := "t1", file := none }]
      ∧ (sendMessage "tmp1" "f1" "e1" "t1" "t2" "hi" none false []
            (.success { user_msg_id := some "u1", assistant_msg_id := some "a1",
                        response := some "hello back" })).take (List.length
            ([] : List Msg))
          = reconcileTempId "tmp1" (some "u1") []
      ∧ (sendMessage "tmp1" "f1" "e1" "t1" "t2" "hi" none false []
            (.success { user_msg_id := some "u1", assistant_msg_id := some "a1",
                        response := some "hello back" })).drop (List.length
            ([] : List Msg))
          = [{ id := jsOrStr (some "u1") "tmp1", role := "user",
               content := (jsTrim "hi"), timestamp := "t1", file := none },
             assistantMessage
               { user_msg_id := some "u1", assistant_msg_id := some "a1",
                 response := some "hello back" } "f1" "t2"]
      ∧ (assistantMessage
            { user_msg_id := some "u1", assistant_msg_id := some "a1",
              response := some "hello back" } "f1" "t2").role = "assistant"
      ∧ (∀ reply : String,
          ({ user_msg_id := some "u1", assistant_msg_id := some "a1",
             response := some "hello back" } : ChatResponseData).response
            = some reply →
          reply.isEmpty = false →
          (assistantMessage
            { user_msg_id := some "u1", assistant_msg_id := some "a1",
              response := some "hello back" } "f1" "t2").content = reply)) :=
  ⟨by decide, rfl,
   C3_user_then_assistant "tmp1" "f1" "e1" "t1" "t2" "hi" none []
     { user_msg_id := some "u1", assistant_msg_id := some "a1",
       response := some "hello back" } (by decide)⟩

/-- C4: when the POST /api/chat request fails (network error or non-2xx,
both reaching the catch block as a thrown error whose text is errText),
sendMessage still returns a list — the error is absorbed, not
propagated — that keeps the optimistic user message and ends with a new
assistant-role message whose content contains the error text. -/
theorem C4_failure_appends_error
    (tempMsgId freshId errId ts1 ts2 input errText : String)
    (uploadedFile : Option String) (msgs : List Msg)
    (h : (jsTrim input).isEmpty = false) :
    sendMessage tempMsgId freshId errId ts1 ts2 input uploadedFile false msgs
        (.failure errText)
      = msgs ++ [{ id := tempMsgId, role := "user", content := (jsTrim input),
                   timestamp := ts1, file := uploadedFile },
                 errorMessage errId errText ts2]
    ∧ (errorMessage errId errText ts2).role = "assistant"
    ∧ ∃ pre post, (errorMessage errId errText ts2).content
        = pre ++ errText ++ post := by
  refine ⟨?_, rfl, "**Error:** ", ". Please try again.", ?_⟩
  · simp [sendMessage, sendMessageGuard_false input uploadedFile h,
      sendMessageOptimistic]
  · simp [errorMessage]

/-- C4 witness: a failed send of "hi" with error text "API Error: 500". -/
theorem C4_witness :
    ((jsTrim "hi").isEmpty = false)
    ∧ (sendMessage "tmp1" "f1" "e1" "t1" "t2" "hi" none false []
          (.failure "API Error: 500")
        = [] ++ [{ id := "tmp1", role := "user", content := (jsTrim "hi"),
                   timestamp := "t1", file := none },
                 errorMessage "e1" "API Error: 500" "t2"]
      ∧ (errorMessage "e1" "API Error: 500" "t2").role = "assistant"
      ∧ ∃ pre post, (errorMessage "e1" "API Error: 500" "t2").content
          = pre ++ "API Error: 500" ++ post) :=
  ⟨by decide,
   C4_failure_appends_error "tmp1" "f1" "e1" "t1" "t2" "hi" "API Error: 500"
     none [] (by decide)⟩

theorem reconcileTempId_of_ne (tempMsgId : String) (user_msg_id : Option String)
    (l : List Msg) (h : l.all (fun m => m.id != tempMsgId) = true) :
    reconcileTempId tempMsgId user_msg_id l = l := by
  induction l with
  | nil => rfl
  | cons a l ih =>
      rw [List.all_cons, Bool.and_eq_true] at h
      have ha : ¬(a.id = tempMsgId) := bne_iff_ne.mp h.1
      simp only [reconcileTempId, List.map_cons, if_neg ha, List.cons.injEq,
        true_and]
      exact ih h.2

/-- C8: reconciliation after a successful /api/chat response rewrites
exactly the id of the single message carrying the temporary id, keeping
its role, content, timestamp and attachment and leaving every other
message untouched; and when the response supplies no server id the whole
list — temporary id included — is unchanged. -/
theorem C8_reconcile_updates_only_temp (tempMsgId serverId : String)
    (pre post : List Msg) (tm : Msg)
    (h1 : tm.id = tempMsgId)
    (h2 : pre.all (fun m => m.id != tempMsgId) = true)
    (h3 : post.all (fun m => m.id != tempMsgId) = true)
    (h4 : serverId.isEmpty = false) :
    reconcileTempId tempMsgId (some serverId) (pre ++ tm :: post)
        = pre ++ { tm with id := serverId } :: post
    ∧ ({ tm with id := serverId } : Msg).role = tm.role
    ∧ ({ tm with id := serverId } : Msg).content = tm.content
    ∧ ({ tm with id := serverId } : Msg).timestamp = tm.timestamp
    ∧ ({ tm with id := serverId } : Msg).file = tm.file
    ∧ reconcileTempId tempMsgId none (pre ++ tm :: post)
        = pre ++ tm :: post := by
  have hcons : ∀ uid : Option String, reconcileTempId tempMsgId uid (tm :: post)
      = { tm with id := jsOrStr uid tempMsgId } :: post := by
    intro uid
    simp only [reconcileTempId, List.map_cons, if_pos h1]
    exact congrArg _ (reconcileTempId_of_ne tempMsgId uid post h3)
  refine ⟨?_, rfl, rfl, rfl, rfl, ?_⟩
  · rw [show pre ++ tm :: post = pre ++ (tm :: post) from rfl,
      reconcileTempId_append, reconcileTempId_of_ne tempMsgId _ pre h2, hcons]
    simp [jsOrStr, h4]
  · rw [show pre ++ tm :: post = pre ++ (tm :: post) from rfl,
      reconcileTempId_append, reconcileTempId_of_ne tempMsgId _ pre h2, hcons]
    obtain ⟨tid, trole, tcont, tts, tfile⟩ := tm
    simp only at h1
    subst h1
    rfl

/-- C8 witness: a one-element list holding the temporary message,
reconciled with server id u1. -/
theorem C8_witness :
    (({ id := "tmp1", role := "user", content := "hi", timestamp := "t1",
        file := none } : Msg).id = "tmp1")
    ∧ (([] : List Msg).all (fun m => m.id != "tmp1") = true)
    ∧ ("u1".isEmpty = false)
    ∧ (reconcileTempId "tmp1" (some "u1")
          ([] ++ ({ id := "tmp1", role := "user", content := "hi",
                    timestamp := "t1", file := none } : Msg) :: [])
        = [] ++ ({ ({ id := "tmp1", role := "user", content := "hi",
                      timestamp := "t1", file := none } : Msg) with
                   id := "u1" } : Msg) :: []
      ∧ ({ ({ id := "tmp1", role := "user", content := "hi",
              timestamp := "t1", file := none } : Msg) with
           id := "u1" } : Msg).role
          = ({ id := "tmp1", role := "user", content := "hi",
               timestamp := "t1", file := none } : Msg).role
      ∧ ({ ({ id := "tmp1", role := "user", content := "hi",
              timestamp := "t1", file := none } : Msg) with
           id := "u1" } : Msg).content
          = ({ id := "tmp1", role := "user", content := "hi",
               timestamp := "t1", file := none } : Msg).content
      ∧ ({ ({ id := "tmp1", role := "user", content := "hi",
              timestamp := "t1", file := none } : Msg) with
           id := "u1" } : Msg).timestamp
          = ({ id := "tmp1", role := "user", content := "hi",
               timestamp := "t1", file := none } : Msg).timestamp
      ∧ ({ ({ id := "tmp1", role := "user", content := "hi",
              timestamp := "t1", file := none } : Msg) with
           id := "u1" } : Msg).file
          = ({ id := "tmp1", role := "user", content := "hi",
               timestamp := "t1", file := none } : Msg).file
      ∧ reconcileTempId "tmp1" none
          ([] ++ ({ id := "tmp1", role := "user", content := "hi",
                    timestamp := "t1", file := none } : Msg) :: [])
        = [] ++ ({ id := "tmp1", role := "user", content := "hi",
                   timestamp := "t1", file := none } : Msg) :: []) :=
  ⟨rfl, rfl, by decide,
   C8_reconcile_updates_only_temp "tmp1" "u1" [] []
     { id := "tmp1", role := "user", content := "hi", timestamp := "t1",
       file := none } rfl rfl rfl (by decide)⟩

/-! Claim C2: what the two sendMessage variants actually put on the wire
and read back. -/

theorem reconcileTmp_append (tmpId : String) (json : PartB.ChatJson)
    (l1 l2 : List PartB.Msg) :
    PartB.reconcileTmp tmpId json (l1 ++ l2)
      = PartB.reconcileTmp tmpId json l1 ++ PartB.reconcileTmp tmpId json l2 := by
  simp [PartB.reconcileTmp]

theorem reconcileTmp_length (tmpId : String) (json : PartB.ChatJson)
    (l : List PartB.Msg) :
    (PartB.reconcileTmp tmpId json l).length = l.length := by
  simp [PartB.reconcileTmp]

/-- C2 counterexample: the sendMessage of ChatInterface.jsx does not post
a {message, conversation_id, agent_type} body: at a concrete send
(conversation conv-1, agent general, message "hello", no file) its
payload carries the field agent_id and no field agent_type, and its full
field list differs from the three fields the claim names. -/
theorem C2_counterexample :
    ("agent_type" ∉ (chatPayload "conv-1" "general" "hello" none none).map
        Prod.fst)
    ∧ (chatPayload "conv-1" "general" "hello" none none).map Prod.fst
        ≠ ["message", "conversation_id", "agent_type"]
    ∧ (chatPayload "conv-1" "general" "hello" none none).map Prod.fst
        = ["conversation_id", "agent_id", "message", "file_data",
           "file_name"] := by
  refine ⟨?_, ?_, rfl⟩ <;> decide

/-- C2 amended: the part_002 sendMessage variant posts exactly
{message, conversation_id, agent_type} (no file attached) and consumes
the response as the claim says — a string ai_response becomes the
appended assistant message content, user_message_id (here with
user_message.id absent) replaces the optimistic user message id, and a
conversation_id of the response is adopted when no conversation was
current; the ChatInterface.jsx variant instead posts
{conversation_id, agent_id, message, file_data, file_name}. -/
theorem C2_amended_chat_api (conversation_id agent_id message : String)
    (file_data file_name : Option String)
    (agent_type reply uid2 newCid tmpId fallbackId errId ts1 ts2
      inputMessage : String)
    (stringify : PartB.AiItem → String) (fresh : Nat → String)
    (msgs : List PartB.Msg) (json : PartB.ChatJson)
    (h1 : (jsTrim inputMessage).isEmpty = false)
    (h2 : json.ai_response = some [PartB.AiItem.str reply])
    (h3 : json.user_message_obj_id = none)
    (h4 : json.user_message_id = some uid2)
    (h5 : uid2.isEmpty = false)
    (h6 : json.conversation_id = some newCid)
    (h7 : newCid.isEmpty = false) :
    (PartB.chatBody (jsTrim inputMessage) (some conversation_id) agent_type
        none).map Prod.fst
      = ["message", "conversation_id", "agent_type"]
    ∧ (PartB.sendMessage stringify tmpId fresh fallbackId errId ts1 ts2
          inputMessage none msgs (.success json)).drop msgs.length
        = [{ id := uid2, role := "user", content := jsTrim inputMessage,
             timestamp := ts1, sending := false, file := none },
           { id := fresh 0, role := "assistant", content := reply,
             timestamp := ts2 }]
    ∧ PartB.conversationAfter none json = some newCid
    ∧ (chatPayload conversation_id agent_id message file_data file_name).map
        Prod.fst
      = ["conversation_id", "agent_id", "message", "file_data",
         "file_name"] := by
  refine ⟨rfl, ?_, ?_, rfl⟩
  · simp only [PartB.sendMessage, h1, Bool.false_and, Bool.false_eq_true,
      if_false, h2]
    rw [reconcileTmp_append]
    rw [List.append_assoc, ← reconcileTmp_length tmpId json msgs,
      List.drop_left]
    simp only [PartB.reconcileTmp, List.map_cons, List.map_nil, if_pos rfl,
      h3, h4, List.mapIdx_cons, List.mapIdx_nil, PartB.aiItemToMsg]
    simp [jsOrStr, h5]
  · simp [PartB.conversationAfter, h6, h7]

/-- C2 witness: a concrete part_002 send of "hello" with agent general
into an empty view, answered with reply "hi there", user message id u7
and a fresh conversation id c42; and the concrete ChatInterface.jsx
payload for the same send. -/
theorem C2_witness :
    ((jsTrim "hello").isEmpty = false)
    ∧ (PartB.sampleChatJson.ai_response = some [PartB.AiItem.str "hi there"])
    ∧ ((PartB.chatBody (jsTrim "hello") (some "conv-1") "general" none).map
          Prod.fst
        = ["message", "conversation_id", "agent_type"]
      ∧ (PartB.sendMessage (fun _ => "") "tmp-1" (fun _ => "ai-0") "ai-9"
            "err-9" "t1" "t2" "hello" none []
            (.success PartB.sampleChatJson)).drop (List.length
            ([] : List PartB.Msg))
          = [{ id := "u7", role := "user", content := jsTrim "hello",
               timestamp := "t1", sending := false, file := none },
             { id := (fun _ : Nat => "ai-0") 0, role := "assistant",
               content := "hi there", timestamp := "t2" }]
      ∧ PartB.conversationAfter none PartB.sampleChatJson = some "c42"
      ∧ (chatPayload "conv-1" "general" "hello" none none).map Prod.fst
          = ["conversation_id", "agent_id", "message", "file_data",
             "file_name"]) :=
  ⟨by decide, rfl,
   C2_amended_chat_api "conv-1" "general" "hello" none none "general"
     "hi there" "u7" "c42" "tmp-1" "ai-9" "err-9" "t1" "t2" "hello"
     (fun _ => "") (fun _ => "ai-0") [] PartB.sampleChatJson
     (by decide) rfl rfl rfl (by decide) rfl (by decide)⟩

/-- C6: toggling the theme and reloading restores the toggled theme.
The toggle flips light to dark and dark to light; the theme effect then
stores the new value in localStorage and sets the html dark class to
(theme equals dark); after a reload the mount effect reads the stored
value back, so the initialized theme is the toggled one and the dark
class matches the stored value.  The standalone ThemeToggle component of
ui/theme-toggle.jsx behaves alike: after its flip, its initializer reads
back exactly the flipped theme regardless of the system preference. -/
theorem C6_theme_persists_across_reload (s : ThemeState) (t : String)
    (systemDark : Bool) :
    (themeEffect (toggleTheme s)).storage = some (toggleTheme s).theme
    ∧ (themeEffect (reloadThemeInit
          (themeEffect (toggleTheme s)).storage)).theme
        = (toggleTheme s).theme
    ∧ (themeEffect (reloadThemeInit
          (themeEffect (toggleTheme s)).storage)).darkClass
        = ((toggleTheme s).theme == "dark")
    ∧ (themeEffect (reloadThemeInit
          (themeEffect (toggleTheme s)).storage)).storage
        = some (toggleTheme s).theme
    ∧ (toggleTheme ⟨"light", s.storage, s.darkClass⟩).theme = "dark"
    ∧ (toggleTheme ⟨"dark", s.storage, s.darkClass⟩).theme = "light"
    ∧ themeToggleInit (some (themeToggleFlip t)) systemDark
        = themeToggleFlip t
    ∧ themeToggleFlip "dark" = "light"
    ∧ themeToggleFlip "light" = "dark" := by
  have hne : ((toggleTheme s).theme).isEmpty = false := by
    show (if s.theme = "light" then "dark" else "light").isEmpty = false
    by_cases hl : s.theme = "light"
    · rw [if_pos hl]
      decide
    · rw [if_neg hl]
      decide
  have hflip : (themeToggleFlip t).isEmpty = false := by
    show (if t = "dark" then "light" else "dark").isEmpty = false
    by_cases hd : t = "dark"
    · rw [if_pos hd]
      decide
    · rw [if_neg hd]
      decide
  refine ⟨rfl, ?_, ?_, ?_, by simp [toggleTheme], by simp [toggleTheme],
    ?_, rfl, rfl⟩
  · simp [themeEffect, reloadThemeInit, jsOrStr, hne]
  · simp [themeEffect, reloadThemeInit, jsOrStr, hne]
  · simp [themeEffect, reloadThemeInit, jsOrStr, hne]
  · simp [themeToggleInit, jsOrStr, hflip]

/-- C7: when the current conversation becomes null the messages state
becomes empty; when it changes to conversation cid and the fetch
succeeds, the state is replaced by exactly the fetched-and-filtered
messages of cid — every shown message comes from the fetch result, so
nothing of the previously shown conversation survives.  The part_002
variant likewise replaces the state with the fetched messages (or empty
when the field is absent) on a successful load. -/
theorem C7_switch_replaces_messages (cid : String) (fetched : List Msg)
    (map : DeletedMap) (mockId mockTs : String) (fetch : FetchMessages)
    (loaded : List PartB.Msg) :
    messagesEffect none fetch map mockId mockTs = []
    ∧ messagesEffect (some cid) (.ok fetched) map mockId mockTs
        = fetched.filter (fun m => !(isMessageLocallyDeleted map cid m.id))
    ∧ ((messagesEffect (some cid) (.ok fetched) map mockId mockTs).all
        (fun m => decide (m ∈ fetched))) = true
    ∧ PartB.loadConversationMessages (some loaded) = loaded
    ∧ PartB.loadConversationMessages none = []
    ∧ ((PartB.loadConversationMessages (some loaded)).all
        (fun m => decide (m ∈ loaded))) = true := by
  refine ⟨rfl, rfl, ?_, rfl, rfl, ?_⟩
  · simp only [messagesEffect, loadMessages, List.all_eq_true,
      List.mem_filter, decide_eq_true_eq]
    exact fun m hm => hm.1
  · simp [PartB.loadConversationMessages, List.all_eq_true]

/-- C9: a scroll event puts the UI in manual-scroll mode exactly when
the scroll position sits more than 10 pixels above the bottom of the
content (and takes it back out within 10 pixels of the bottom, the two
being the complementary values of the same boolean); and the effect that
runs when the messages list changes scrolls to the bottom exactly when
manual-scroll mode is off or a send or the typing indicator is in
progress. -/
theorem C9_scroll_mode (e : ScrollMetrics)
    (manualScroll isSending isTyping : Bool) :
    handleScroll e
        = decide (10 < e.scrollHeight - e.clientHeight - e.scrollTop)
    ∧ (!(handleScroll e))
        = decide (e.scrollHeight - e.clientHeight - e.scrollTop ≤ 10)
    ∧ shouldAutoScroll manualScroll isSending isTyping
        = decide (manualScroll = false ∨ isSending = true
            ∨ isTyping = true) := by
  refine ⟨?_, ?_, ?_⟩
  · simp only [handleScroll, isAtBottom, ← decide_not]
    rw [decide_eq_decide]
    omega
  · simp only [handleScroll, isAtBottom, Bool.not_not]
    rw [decide_eq_decide]
    omega
  · cases manualScroll <;> cases isSending <;> cases isTyping <;>
      simp [shouldAutoScroll]

end Rockbot
